import Mathlib

/-!
Verification of the emocare reply-generator handler
(`netlify/functions/chat.js`): a shallow embedding of the single
Netlify function and proofs of the specified properties.

JavaScript strings are modelled as Lean `String` (lists of characters),
JSON values as the inductive `Json` below, and the two `Math.random()`
draws in `generateReply` as two explicit natural-number inputs that are
reduced modulo the phrase-list length, exactly as
`Math.floor(Math.random() * list.length)` produces an index in
`[0, list.length)`.
-/

/-- A JSON number, kept exact as `coeff × 10^exp10` (the claims under
verification never exercise non-integer numbers, so no float rounding is
modelled; a number is the JS value `0`, hence falsy, iff its coefficient
is 0). -/
structure JsonNumber where
  coeff : Int
  exp10 : Int
deriving Repr, DecidableEq

/-- A parsed JSON value: the possible results of `JSON.parse`. -/
inductive Json where
  | null
  | bool (b : Bool)
  | num (value : JsonNumber)
  | str (s : String)
  | arr (items : List Json)
  | obj (fields : List (String × Json))
deriving Inhabited

/-! ### Character-level helpers for the `JSON.parse` model -/

/-- JSON insignificant whitespace (RFC 8259: space, tab, LF, CR). -/
def jsonWs (c : Char) : Bool := c = ' ' || c = '\n' || c = '\t' || c = '\r'

/-- Drop leading JSON whitespace. -/
def skipWs (cs : List Char) : List Char := cs.dropWhile jsonWs

def isDigitCh (c : Char) : Bool := '0' ≤ c && c ≤ '9'

/-- Numeric value of a digit run, accumulator style. -/
def digitsVal : List Char → Nat → Nat
  | [], acc => acc
  | d :: ds, acc => digitsVal ds (acc * 10 + (d.toNat - 48))

/-- Drop an expected literal sequence of characters, or fail. -/
def dropLit : List Char → List Char → Option (List Char)
  | [], cs => some cs
  | p :: ps, c :: cs => if c = p then dropLit ps cs else none
  | _ :: _, [] => none

def hexDigitVal (c : Char) : Option Nat :=
  if isDigitCh c then some (c.toNat - 48)
  else if 'a' ≤ c && c ≤ 'f' then some (c.toNat - 87)
  else if 'A' ≤ c && c ≤ 'F' then some (c.toNat - 55)
  else none

/-- Decode a single-character JSON string escape via an association list. -/
def unescapeCh (e : Char) : Option Char :=
  [('"', '"'), ('\\', '\\'), ('/', '/'), ('n', '\n'), ('r', '\r'),
   ('t', '\t'), ('b', Char.ofNat 8), ('f', Char.ofNat 12)].lookup e

/-- Parse the body of a JSON string literal after the opening quote,
returning the decoded characters and the input after the closing quote. -/
def parseStrBody (acc : List Char) : List Char → Option (String × List Char)
  | [] => none
  | '"' :: tl => some (String.mk acc.reverse, tl)
  | '\\' :: 'u' :: h1 :: h2 :: h3 :: h4 :: tl =>
    (match hexDigitVal h1, hexDigitVal h2, hexDigitVal h3, hexDigitVal h4 with
     | some d1, some d2, some d3, some d4 =>
       parseStrBody (Char.ofNat (d1 * 4096 + d2 * 256 + d3 * 16 + d4) :: acc) tl
     | _, _, _, _ => none)
  | '\\' :: e :: tl => (unescapeCh e).bind (fun ch => parseStrBody (ch :: acc) tl)
  | c :: tl => parseStrBody (c :: acc) tl

/-- Optional minus sign of a JSON number. -/
def readSign : List Char → Bool × List Char
  | '-' :: tl => (true, tl)
  | cs => (false, cs)

/-- Optional fraction of a JSON number: `.` followed by one or more
digits, or nothing. -/
def fracPart : List Char → Option (List Char × List Char)
  | '.' :: tl =>
    if (tl.takeWhile isDigitCh) = [] then none
    else some (tl.takeWhile isDigitCh, tl.dropWhile isDigitCh)
  | cs => some ([], cs)

/-- Optional exponent of a JSON number: `e`/`E`, an optional sign, and one
or more digits, or nothing. -/
def expPart : List Char → Option (Int × List Char)
  | 'e' :: tl | 'E' :: tl =>
    let (esgn, tl1) : Int × List Char :=
      match tl with
      | '+' :: u => (1, u)
      | '-' :: u => (-1, u)
      | _ => (1, tl)
    if (tl1.takeWhile isDigitCh) = [] then none
    else some (esgn * (digitsVal (tl1.takeWhile isDigitCh) 0 : Int), tl1.dropWhile isDigitCh)
  | cs => some (0, cs)

/-- Parse a JSON number (sign, integer part with no leading zero, optional
fraction, optional exponent), as the JSON grammar requires. -/
def parseNum (cs : List Char) : Option (JsonNumber × List Char) :=
  let (neg, afterSign) := readSign cs
  let intDs := afterSign.takeWhile isDigitCh
  if intDs = [] then none
  else if intDs.headD '0' = '0' ∧ 2 ≤ intDs.length then none
  else
    (fracPart (afterSign.dropWhile isDigitCh)).bind (fun fp =>
      (expPart fp.2).map (fun ep =>
        let signFactor : Int := if neg then -1 else 1
        (⟨signFactor * (digitsVal (intDs ++ fp.1) 0 : Int), ep.1 - (fp.1.length : Int)⟩, ep.2)))

mutual

/-- The value parser of the `JSON.parse` model; structural on `fuel`. -/
def parseVal : Nat → List Char → Option (Json × List Char)
  | 0, _ => none
  | fuel + 1, input =>
    match skipWs input with
    | 'n' :: tl => (dropLit ['u', 'l', 'l'] tl).map (Prod.mk Json.null)
    | 't' :: tl => (dropLit ['r', 'u', 'e'] tl).map (Prod.mk (Json.bool true))
    | 'f' :: tl => (dropLit ['a', 'l', 's', 'e'] tl).map (Prod.mk (Json.bool false))
    | '"' :: tl => (parseStrBody [] tl).map (fun p => (Json.str p.1, p.2))
    | '[' :: tl =>
      (match skipWs tl with
       | ']' :: after => some (Json.arr [], after)
       | body => (parseElems fuel body).map (fun p => (Json.arr p.1, p.2)))
    | '{' :: tl =>
      (match skipWs tl with
       | '}' :: after => some (Json.obj [], after)
       | body => (parseFields fuel body).map (fun p => (Json.obj p.1, p.2)))
    | c :: tl =>
      if c = '-' || isDigitCh c then (parseNum (c :: tl)).map (fun p => (Json.num p.1, p.2))
      else none
    | [] => none

/-- One-or-more comma-separated array elements (the empty array is handled
by `parseVal`). -/
def parseElems : Nat → List Char → Option (List Json × List Char)
  | 0, _ => none
  | fuel + 1, input =>
    (parseVal fuel input).bind (fun hd =>
      match skipWs hd.2 with
      | ',' :: more => (parseElems fuel more).map (fun p => (hd.1 :: p.1, p.2))
      | ']' :: more => some ([hd.1], more)
      | _ => none)

/-- One-or-more comma-separated object members (the empty object is handled
by `parseVal`). -/
def parseFields : Nat → List Char → Option (List (String × Json) × List Char)
  | 0, _ => none
  | fuel + 1, input =>
    match skipWs input with
    | '"' :: tl =>
      (parseStrBody [] tl).bind (fun key =>
        match skipWs key.2 with
        | ':' :: afterColon =>
          (parseVal fuel afterColon).bind (fun hd =>
            match skipWs hd.2 with
            | ',' :: more => (parseFields fuel more).map (fun p => ((key.1, hd.1) :: p.1, p.2))
            | '}' :: more => some ([(key.1, hd.1)], more)
            | _ => none)
        | _ => none)
    | _ => none

end

/-- Model of `JSON.parse`: parse one JSON value and require only whitespace
after it; `none` models the thrown `SyntaxError`. -/
def jsonParse (s : String) : Option Json :=
  match parseVal (s.length + 1) s.data with
  | some (v, rest) => if skipWs rest = [] then some v else none
  | none => none

/-! ### JavaScript value semantics used by the handler -/

/-- JS truthiness of a JSON value: `null`, `false`, the number `0` and the
empty string are falsy; every array and object is truthy. -/
def jsTruthy : Json → Bool
  | Json.null => false
  | Json.bool b => b
  | Json.num n => n.coeff ≠ 0
  | Json.str s => s ≠ ""
  | Json.arr _ => true
  | Json.obj _ => true

/-- Render a `JsonNumber` the way JS `String(number)` does on the integer
fragment the claims exercise (exponent 0); the non-integer formatting of JS
doubles is outside the modelled fragment and is rendered positionally. -/
def numToString (n : JsonNumber) : String :=
  if n.exp10 = 0 then toString n.coeff
  else toString n.coeff ++ "e" ++ toString n.exp10

mutual

/-- JS `String(v)` coercion: strings pass through, `null`/booleans/numbers
print their literal, arrays stringify as their elements joined with commas
(with `null` elements becoming empty, as `Array.prototype.toString` does),
and plain objects print `[object Object]`. -/
def jsToString : Json → String
  | Json.null => "null"
  | Json.bool b => if b then "true" else "false"
  | Json.num n => numToString n
  | Json.str s => s
  | Json.arr xs => String.intercalate "," (jsToStringElems xs)
  | Json.obj _ => "[object Object]"

/-- Element-wise stringification for arrays (`null` becomes the empty
string inside a joined array, per `Array.prototype.join`). -/
def jsToStringElems : List Json → List String
  | [] => []
  | Json.null :: vs => "" :: jsToStringElems vs
  | v :: vs => jsToString v :: jsToStringElems vs

end

/-- JS property read `v[k]`: throws (`Option.none` outside) on `null`,
yields the property (last duplicate wins, as `JSON.parse` retains the last
occurrence of a duplicated key) on objects, and `undefined` (inner
`Option.none`) on every other value, whose wrappers have no such key. -/
def getProp (v : Json) (k : String) : Option (Option Json) :=
  match v with
  | Json.null => none
  | Json.obj kvs => some (kvs.foldl (fun acc p => if p.1 = k then some p.2 else acc) none)
  | _ => some none

/-! ### String helpers mirroring the JS methods used by `chat.js` -/

/-- Drop leading whitespace characters. -/
def dropLeadingWs : List Char → List Char
  | [] => []
  | c :: cs => if c.isWhitespace then dropLeadingWs cs else c :: cs

/-- JS `String.prototype.trim`: remove whitespace from both ends. -/
def trimJS (s : String) : String :=
  String.mk (dropLeadingWs (dropLeadingWs s.data).reverse).reverse

/-- JS `String.prototype.toLowerCase` on the ASCII fragment the keyword
tables live in. -/
def toLowerJS (s : String) : String := String.mk (s.data.map Char.toLower)

/-- Substring test: does `needle` occur contiguously in `hay`? -/
def containsSub (hay needle : List Char) : Bool :=
  match hay with
  | [] => needle.isEmpty
  | _ :: t => needle.isPrefixOf hay || containsSub t needle

/-- JS `haystack.includes(w)`. -/
def strIncludes (s w : String) : Bool := containsSub s.data w.data

/-- Accumulator for `splitWsRuns`: collect maximal nonempty runs of
non-whitespace characters. -/
def splitWsAux : List Char → List Char → List String
  | [], acc => if acc = [] then [] else [String.mk acc.reverse]
  | c :: cs, acc =>
    if c.isWhitespace then
      if acc = [] then splitWsAux cs []
      else String.mk acc.reverse :: splitWsAux cs []
    else splitWsAux cs (c :: acc)

/-- JS `s.split(/\s+/)` on an already-trimmed string: the maximal
whitespace-separated words, in order (on the empty string JS returns
`[""]`, but the handler only ever splits nonempty trimmed text). -/
def splitWsRuns (s : String) : List String := splitWsAux s.data []

/-! ### The emotion classifier (`detectEmotion` in `chat.js`) -/

def sadWords : List String := ["sad", "unhappy", "depressed", "cry", "lonely"]
def happyWords : List String := ["happy", "glad", "awesome", "great", "joy"]
def angryWords : List String := ["angry", "mad", "furious", "annoyed", "hate"]
def anxiousWords : List String := ["anxious", "scared", "nervous", "worried", "panic"]
def loveWords : List String := ["love", "luv"]
def surprisedWords : List String := ["surprise", "surprised", "shocked"]

/-- `detectEmotion(t)`: lower-case the text, then run the six keyword
checks in source order with substring containment; first hit wins,
otherwise `neutral`. -/
def detectEmotion (t : String) : String :=
  let s := toLowerJS t
  if sadWords.any (fun w => strIncludes s w) then "sad"
  else if happyWords.any (fun w => strIncludes s w) then "happy"
  else if angryWords.any (fun w => strIncludes s w) then "angry"
  else if anxiousWords.any (fun w => strIncludes s w) then "anxious"
  else if loveWords.any (fun w => strIncludes s w) then "love"
  else if surprisedWords.any (fun w => strIncludes s w) then "surprised"
  else "neutral"

/-- The spec's priority order of keyword sets, §4.2. -/
def keywordTable : List (String × List String) :=
  [("sad", sadWords), ("happy", happyWords), ("angry", angryWords),
   ("anxious", anxiousWords), ("love", loveWords), ("surprised", surprisedWords)]

/-- First label of the table whose keyword set matches, else `neutral`
(the spec's "first match wins; if none match, returns neutral"). -/
def firstMatch (s : String) : List (String × List String) → String
  | [] => "neutral"
  | (label, ws) :: rest => if ws.any (fun w => strIncludes s w) then label else firstMatch s rest

/-- Reference classifier written from the spec's words (§4.2): lower-case,
then scan the priority-ordered keyword table for the first matching set. -/
def classifySpec (t : String) : String := firstMatch (toLowerJS t) keywordTable

/-! ### The phrase banks and reply composer (`generateReply` in `chat.js`) -/

def neutralValidation : List String :=
  ["I'm here and listening.", "Thanks for sharing."]

/-- The `VALIDATION` phrase bank, keyed by emotion label. -/
def VALIDATION : List (String × List String) :=
  [("sad", ["I'm really sorry you're going through this.",
            "That must be so difficult—thank you for sharing."]),
   ("angry", ["I can hear the anger in your words.", "Anger is a natural reaction."]),
   ("anxious", ["Being anxious feels overwhelming—you're not alone.",
                "I hear that worry. Let's try something grounding."]),
   ("happy", ["That's wonderful to hear!", "I'm glad you're feeling good."]),
   ("love", ["That's lovely—feeling connected is meaningful.",
             "Happy you have warmth in your life."]),
   ("surprised", ["That sounds surprising.", "That must have been unexpected."]),
   ("neutral", neutralValidation)]

def neutralSuggestions : List String :=
  ["Would you like a prompt—like 'What happened today?'",
   "We can try a short check-in exercise."]

/-- The `SUGGESTIONS` phrase bank, keyed by emotion label. -/
def SUGGESTIONS : List (String × List String) :=
  [("sad", ["Would you like a quick breathing exercise?",
            "Sometimes writing one sentence about what you feel can help."]),
   ("angry", ["Try slow 4-4-4 breathing.", "Name one thing you can change and one you can't."]),
   ("anxious", ["Try grounding: 5 things you see, 4 touch, 3 hear.",
                "Slow deep breaths can help."]),
   ("happy", ["Want to save this as a happy memory?", "Want to celebrate with a compliment?"]),
   ("love", ["Would you like to reflect on what made this connection strong?",
             "Note this as a positive memory?"]),
   ("surprised", ["Do you want to unpack what surprised you?",
                  "If it's good—congrats! If not, I'm here."]),
   ("neutral", neutralSuggestions)]

/-- Property lookup in a phrase-bank object literal. -/
def lookupTable : List (String × List String) → String → Option (List String)
  | [], _ => none
  | (k, v) :: rest, e => if k = e then some v else lookupTable rest e

/-- `list[Math.floor(Math.random() * list.length)]` with the random draw
supplied as a natural number reduced modulo the length. -/
def jsPick (l : List String) (r : Nat) : String := l.getD (r % l.length) ""

/-- The reflection clause of `generateReply`: quote the first 12
whitespace-separated words of the trimmed text, with `...` inside the
closing quote when words were cut. -/
def reflectionClause (userText : String) : String :=
  let words := splitWsRuns (trimJS userText)
  if words.length ≠ 0 then
    "You said: \"" ++ String.intercalate " " (words.take 12) ++
      (if words.length > 12 then "..." else "") ++ "\""
  else ""

/-- `generateReply(userText, emotion)`: pick a validation and a suggestion
phrase (falling back to the neutral lists for an unknown label, as
`VALIDATION[emotion] || VALIDATION.neutral` does), build the reflection
clause, and join the nonempty pieces with single spaces. -/
def generateReply (rv rs : Nat) (userText emotion : String) : String :=
  let v := (lookupTable VALIDATION emotion).getD neutralValidation
  let s := (lookupTable SUGGESTIONS emotion).getD neutralSuggestions
  let val := jsPick v rv
  let sug := jsPick s rs
  let reflection := reflectionClause userText
  String.intercalate " " ([val, reflection, sug].filter (fun x => x ≠ ""))

/-! ### The handler (`exports.handler` in `chat.js`) -/

/-- The handler's HTTP result: status code, optional `Content-Type`
header, and the response body as the JSON value that is stringified. -/
structure Response where
  statusCode : Nat
  contentType : Option String
  body : Json
deriving Inhabited

/-- The catch-all 500 response. -/
def serverErrorResp : Response :=
  ⟨500, none, Json.obj [("error", Json.str "Server error.")]⟩

/-- The 400 response for missing text. -/
def noTextResp : Response :=
  ⟨400, none, Json.obj [("error", Json.str "No text provided.")]⟩

/-- The 200 response shape. -/
def successResp (emotion reply : String) : Response :=
  ⟨200, some "application/json",
   Json.obj [("emotion", Json.str emotion), ("scores", Json.obj []),
             ("reply", Json.str reply), ("history", Json.arr [])]⟩

/-- `String(data.text || '').trim()`: the extracted text, or a thrown
`TypeError` (`Except.error`) when `data` is `null`. -/
def extractText (data : Json) : Except Unit String :=
  match getProp data "text" with
  | none => Except.error ()
  | some tOpt =>
    Except.ok (trimJS (match tOpt with
      | some v => if jsTruthy v then jsToString v else ""
      | none => ""))

/-- The handler body from the parsed JSON value on: extract `text` and
`session_id`, reject empty text with 400, otherwise classify and reply. -/
def handlerOfData (data : Json) (rv rs : Nat) : Response :=
  match extractText data, getProp data "session_id" with
  | Except.error _, _ => serverErrorResp
  | _, none => serverErrorResp
  | Except.ok text, some sidOpt =>
    let _sessionId := match sidOpt with
      | some v => if jsTruthy v then jsToString v else "default_session"
      | none => "default_session"
    if text = "" then noTextResp
    else
      let emotion := detectEmotion text
      successResp emotion (generateReply rv rs text emotion)

/-- `event.body || '{}'`: the string handed to `JSON.parse` (an absent or
empty body is falsy and replaced by the empty object literal). -/
def bodySrc (body : Option String) : String :=
  match body with
  | none => "\x7b\x7d"
  | some s => if s = "" then "\x7b\x7d" else s

/-- The whole `exports.handler`: parse the body, run the handler, and map
any thrown exception (parse failure, or property read on `null`) to the
catch-all 500. -/
def handler (body : Option String) (rv rs : Nat) : Response :=
  match jsonParse (bodySrc body) with
  | none => serverErrorResp
  | some data => handlerOfData data rv rs

/-- A request object with optional `text` and `session_id` fields, as
`JSON.parse` would produce it. -/
def mkRequest (t sid : Option Json) : Json :=
  Json.obj ((match t with | some v => [("text", v)] | none => []) ++
            (match sid with | some v => [("session_id", v)] | none => []))

/-! ### Helper lemmas -/

/-- The classifier can only produce one of the seven emotion labels. -/
theorem detectEmotion_mem_labels (t : String) :
    detectEmotion t ∈ ["sad", "happy", "angry", "anxious", "love", "surprised", "neutral"] := by
  simp only [detectEmotion]
  split_ifs <;> simp

/-- A phrase selected as `list[Math.floor(Math.random() * list.length)]`
is an element of a nonempty list. -/
theorem jsPick_mem (l : List String) (h : l ≠ []) (r : Nat) : jsPick l r ∈ l := by
  unfold jsPick
  have hm : r % l.length < l.length := Nat.mod_lt _ (List.length_pos.mpr h)
  rw [List.getD_eq_getElem _ _ hm]
  exact List.getElem_mem hm

/-- Whatever the label, the validation lookup (with its neutral fallback)
yields a nonempty phrase list. -/
theorem validation_getD_ne_nil (e : String) :
    (lookupTable VALIDATION e).getD neutralValidation ≠ [] := by
  simp [VALIDATION, lookupTable]
  split_ifs <;> simp [neutralValidation]

/-- Whatever the label, the suggestion lookup (with its neutral fallback)
yields a nonempty phrase list. -/
theorem suggestions_getD_ne_nil (e : String) :
    (lookupTable SUGGESTIONS e).getD neutralSuggestions ≠ [] := by
  simp [SUGGESTIONS, lookupTable]
  split_ifs <;> simp [neutralSuggestions]

/-- On any parsed value other than `null`, the handler body completes
without throwing: the status is 200 or 400. -/
theorem handlerOfData_status (v : Json) (h : v ≠ Json.null) (rv rs : Nat) :
    (handlerOfData v rv rs).statusCode = 200 ∨ (handlerOfData v rv rs).statusCode = 400 := by
  cases v
  case null => exact absurd rfl h
  all_goals
    (unfold handlerOfData extractText
     simp only [getProp]
     split_ifs <;> simp [noTextResp, successResp])

/-! ### The claims -/

/-- C1 counterexample: the request body `"not json"` is rejected by
`JSON.parse`, and the handler answers 500 (`Server error.`), not the
claimed 400 — the parse happens inside the `try`, so a malformed body
lands in the catch-all. -/
theorem C1_counterexample_not_json :
    jsonParse "not json" = none ∧
    handler (some "not json") 0 0 = serverErrorResp ∧
    (handler (some "not json") 0 0).statusCode ≠ 400 :=
  ⟨rfl, rfl, by decide⟩

/-- C1 (amended): for every request whose body is a non-empty string that
is not valid JSON, the handler returns status 500 with body
`{"error": "Server error."}` — not the 400 of an empty body. -/
theorem C1_malformed_json_gives_500 (s : String) (rv rs : Nat)
    (hne : s ≠ "") (hbad : jsonParse s = none) :
    handler (some s) rv rs = serverErrorResp := by
  have h1 : bodySrc (some s) = s := by simp [bodySrc, hne]
  unfold handler
  rw [h1, hbad]

/-- C1 witness: the amended claim at the body `"not json"`. -/
theorem C1_malformed_json_gives_500_witness :
    handler (some "not json") 7 3 = serverErrorResp :=
  C1_malformed_json_gives_500 "not json" 7 3 (by decide) (by rfl)

/-- C2: `detectEmotion` coincides with the reference classifier written
from the spec (lower-case, then the priority-ordered keyword table with
substring containment, first match wins, `neutral` otherwise), and the
seven listed test vectors hold; being a function of the text alone, the
result is the same on every call with the same text. -/
theorem C2_classifier_matches_reference :
    (∀ t, detectEmotion t = classifySpec t) ∧
    detectEmotion "I am so sad today" = "sad" ∧
    detectEmotion "this is great news" = "happy" ∧
    detectEmotion "I am furious" = "angry" ∧
    detectEmotion "I feel nervous" = "anxious" ∧
    detectEmotion "I love you" = "love" ∧
    detectEmotion "I was shocked" = "surprised" ∧
    detectEmotion "the sky is blue" = "neutral" :=
  ⟨fun _ => rfl, by decide, by decide, by decide, by decide, by decide, by decide, by decide⟩

/-- C3: whenever the extracted `String(data.text || '').trim()` is empty
(text missing, empty, or whitespace-only), the handler answers 400 with
exactly `{"error": "No text provided."}`, for any random draws. -/
theorem C3_empty_text_client_error (data : Json) (rv rs : Nat)
    (h : extractText data = Except.ok "") :
    handlerOfData data rv rs = noTextResp := by
  cases data
  case null => exact absurd h (by simp [extractText, getProp])
  all_goals (unfold handlerOfData; rw [h]; rfl)

/-- C3 witness: a whitespace-only `text` field yields the 400 response. -/
theorem C3_empty_text_client_error_witness :
    handlerOfData (Json.obj [("text", Json.str "   ")]) 2 5 = noTextResp :=
  C3_empty_text_client_error _ 2 5 (by rfl)

/-- C4: whenever the extracted trimmed text is non-empty, the handler
answers 200, with the `Content-Type: application/json` header, and a body
of exactly the shape `{emotion, scores, reply, history}` with `scores` the
empty object, `history` the empty array, and `emotion` one of the seven
labels. -/
theorem C4_success_shape (data : Json) (rv rs : Nat) (t : String)
    (ht : extractText data = Except.ok t) (hne : t ≠ "") :
    handlerOfData data rv rs =
      successResp (detectEmotion t) (generateReply rv rs t (detectEmotion t)) ∧
    (handlerOfData data rv rs).statusCode = 200 ∧
    (handlerOfData data rv rs).contentType = some "application/json" ∧
    (handlerOfData data rv rs).body =
      Json.obj [("emotion", Json.str (detectEmotion t)), ("scores", Json.obj []),
                ("reply", Json.str (generateReply rv rs t (detectEmotion t))),
                ("history", Json.arr [])] ∧
    detectEmotion t ∈ ["sad", "happy", "angry", "anxious", "love", "surprised", "neutral"] := by
  have hmain : handlerOfData data rv rs =
      successResp (detectEmotion t) (generateReply rv rs t (detectEmotion t)) := by
    cases data
    case null => exact absurd ht (by simp [extractText, getProp])
    all_goals (unfold handlerOfData; rw [ht]; simp [getProp, hne])
  refine ⟨hmain, ?_, ?_, ?_, detectEmotion_mem_labels t⟩ <;> rw [hmain] <;> rfl

/-- C4 witness: the success shape at the request `{"text": "hello"}`. -/
theorem C4_success_shape_witness :
    handlerOfData (Json.obj [("text", Json.str "hello")]) 0 0 =
      successResp (detectEmotion "hello") (generateReply 0 0 "hello" (detectEmotion "hello")) ∧
    (handlerOfData (Json.obj [("text", Json.str "hello")]) 0 0).statusCode = 200 ∧
    (handlerOfData (Json.obj [("text", Json.str "hello")]) 0 0).contentType =
      some "application/json" ∧
    (handlerOfData (Json.obj [("text", Json.str "hello")]) 0 0).body =
      Json.obj [("emotion", Json.str (detectEmotion "hello")), ("scores", Json.obj []),
                ("reply", Json.str (generateReply 0 0 "hello" (detectEmotion "hello"))),
                ("history", Json.arr [])] ∧
    detectEmotion "hello" ∈ ["sad", "happy", "angry", "anxious", "love", "surprised", "neutral"] :=
  C4_success_shape _ 0 0 "hello" (by rfl) (by decide)

/-- C5: splitting the trimmed input on whitespace runs, more than 12 words
reflect as `You said: "<first 12 words>..."` with the ellipsis inside the
closing quote, and 1 to 12 words reflect whole with no ellipsis; in
particular a 15-word input reflects exactly its first 12 words followed by
`...` and a 5-word input reflects all 5 words. -/
theorem C5_reflection_truncation (s : String) :
    ((splitWsRuns (trimJS s)).length > 12 →
      reflectionClause s =
        "You said: \"" ++ String.intercalate " " ((splitWsRuns (trimJS s)).take 12) ++
          "..." ++ "\"") ∧
    (1 ≤ (splitWsRuns (trimJS s)).length → (splitWsRuns (trimJS s)).length ≤ 12 →
      reflectionClause s =
        "You said: \"" ++ String.intercalate " " (splitWsRuns (trimJS s)) ++ "\"") ∧
    reflectionClause
        "one two three four five six seven eight nine ten eleven twelve thirteen fourteen fifteen" =
      "You said: \"one two three four five six seven eight nine ten eleven twelve...\"" ∧
    reflectionClause "just five words right here" =
      "You said: \"just five words right here\"" := by
  refine ⟨?_, ?_, by decide, by decide⟩
  · intro h
    have h0 : (splitWsRuns (trimJS s)).length ≠ 0 := by omega
    unfold reflectionClause
    rw [if_pos h0, if_pos h]
  · intro h1 h2
    have h0 : (splitWsRuns (trimJS s)).length ≠ 0 := by omega
    have h12 : ¬ (splitWsRuns (trimJS s)).length > 12 := by omega
    unfold reflectionClause
    rw [if_pos h0, if_neg h12, List.take_of_length_le h2, String.append_empty]

/-- C5 witness: the two general clauses applied at a 15-word and a 5-word
input. -/
theorem C5_reflection_truncation_witness :
    reflectionClause
        "one two three four five six seven eight nine ten eleven twelve thirteen fourteen fifteen" =
      "You said: \"" ++
        String.intercalate " "
          ((splitWsRuns (trimJS
            "one two three four five six seven eight nine ten eleven twelve thirteen fourteen fifteen")).take 12) ++
        "..." ++ "\"" ∧
    reflectionClause "just five words right here" =
      "You said: \"" ++
        String.intercalate " " (splitWsRuns (trimJS "just five words right here")) ++ "\"" :=
  ⟨(C5_reflection_truncation
      "one two three four five six seven eight nine ten eleven twelve thirteen fourteen fifteen").1
      (by decide),
   (C5_reflection_truncation "just five words right here").2.1 (by decide) (by decide)⟩

/-- C6: for every non-empty trimmed text and every label, the reply is the
single-space join, with empty pieces dropped, of some validation phrase of
the label's list, the reflection clause, and some suggestion phrase of the
label's list, unknown labels falling back to the neutral lists. -/
theorem C6_reply_composition (text emotion : String) (rv rs : Nat)
    (_h : trimJS text ≠ "") :
    ∃ val ∈ (lookupTable VALIDATION emotion).getD neutralValidation,
    ∃ sug ∈ (lookupTable SUGGESTIONS emotion).getD neutralSuggestions,
      generateReply rv rs text emotion =
        String.intercalate " " ([val, reflectionClause text, sug].filter (fun x => x ≠ "")) :=
  ⟨jsPick _ rv, jsPick_mem _ (validation_getD_ne_nil emotion) rv,
   jsPick _ rs, jsPick_mem _ (suggestions_getD_ne_nil emotion) rs, rfl⟩

/-- C6 witness: the composition shape at text `"hello"`, label `"sad"`. -/
theorem C6_reply_composition_witness :
    ∃ val ∈ (lookupTable VALIDATION "sad").getD neutralValidation,
    ∃ sug ∈ (lookupTable SUGGESTIONS "sad").getD neutralSuggestions,
      generateReply 0 1 "hello" "sad" =
        String.intercalate " " ([val, reflectionClause "hello", sug].filter (fun x => x ≠ "")) :=
  C6_reply_composition "hello" "sad" 0 1 (by decide)

/-- C7: any text containing (case-insensitively) both a sad-keyword and a
happy-keyword classifies as `sad`, the sad check running first. -/
theorem C7_sad_priority (s : String)
    (hsad : ∃ w ∈ sadWords, strIncludes (toLowerJS s) w = true)
    (_hhappy : ∃ w ∈ happyWords, strIncludes (toLowerJS s) w = true) :
    detectEmotion s = "sad" := by
  have hs : sadWords.any (fun w => strIncludes (toLowerJS s) w) = true := by
    rw [List.any_eq_true]
    obtain ⟨w, hw, hinc⟩ := hsad
    exact ⟨w, hw, hinc⟩
  simp only [detectEmotion]
  rw [if_pos hs]

/-- C7 witness: `"I am sad but glad"` contains both a sad-word and a
happy-word and classifies as `sad`. -/
theorem C7_sad_priority_witness : detectEmotion "I am sad but glad" = "sad" :=
  C7_sad_priority "I am sad but glad"
    ⟨"sad", by decide, by decide⟩ ⟨"glad", by decide, by decide⟩

/-- C8: requests that carry the same `text` field and the same random
draws but any `session_id` field (present with any value, or absent)
produce identical responses — status, header and body: the extracted
`sessionId` never flows into the output. -/
theorem C8_session_id_noninterference (t s1 s2 : Option Json) (rv rs : Nat) :
    handlerOfData (mkRequest t s1) rv rs = handlerOfData (mkRequest t s2) rv rs := by
  cases t <;> cases s1 <;> cases s2 <;> rfl

/-- C9 counterexample: `"null"` is valid JSON, yet the handler answers 500
on it — `data.text` throws a `TypeError` when `data` is `null`, so the
catch-all is reachable without a JSON parse failure. -/
theorem C9_counterexample_null_body :
    jsonParse "null" = some Json.null ∧
    handler (some "null") 0 0 = serverErrorResp ∧
    (handler (some "null") 0 0).statusCode ≠ 200 ∧
    (handler (some "null") 0 0).statusCode ≠ 400 :=
  ⟨rfl, rfl, by decide, by decide⟩

/-- C9 (amended): for every request whose body is absent, empty, or parses
to a JSON value other than `null`, the handler never returns 500: the
result is always 200 or 400. (An absent or empty body is replaced by
`'{}'`, which parses to the empty object.) -/
theorem C9_success_or_client_error (b : Option String) (rv rs : Nat) (v : Json)
    (hp : jsonParse (bodySrc b) = some v) (hnn : v ≠ Json.null) :
    (handler b rv rs).statusCode = 200 ∨ (handler b rv rs).statusCode = 400 := by
  unfold handler
  rw [hp]
  exact handlerOfData_status v hnn rv rs

/-- C9 witness: the empty request object (what an absent body parses to)
never yields a 500. -/
theorem C9_success_or_client_error_witness :
    (handler none 0 0).statusCode = 200 ∨ (handler none 0 0).statusCode = 400 :=
  C9_success_or_client_error none 0 0 (Json.obj []) (by rfl) (fun h => Json.noConfusion h)

/-- C10: for every parsed request body whose `text` field is present and
holds a falsy JSON value — the number `0` (any zero numeral), `false`, or
`null` — and whatever other fields the body carries, `data.text || ''`
collapses the value to the empty string, so the handler answers 400
`{"error": "No text provided."}` instead of coercing the value to a
non-empty string such as `"0"`, `"false"` or `"null"`. -/
theorem C10_falsy_text_rejected (data v : Json) (rv rs : Nat)
    (ht : getProp data "text" = some (some v))
    (hv : (∃ n, v = Json.num n ∧ n.coeff = 0) ∨ v = Json.bool false ∨ v = Json.null) :
    handlerOfData data rv rs = noTextResp := by
  have hfalse : jsTruthy v = false := by
    rcases hv with ⟨n, rfl, hn⟩ | rfl | rfl
    · simp [jsTruthy, hn]
    · rfl
    · rfl
  cases data
  case obj kvs =>
    unfold handlerOfData extractText
    rw [ht]
    simp [hfalse, getProp, trimJS, dropLeadingWs]
  all_goals simp [getProp] at ht

/-- C10 witness: a zero `text` among extra fields, a `false` text before
another field, and — end to end — the raw body
`{"a":1,"text":null,"session_id":"s"}`, all answered with the 400. -/
theorem C10_falsy_text_rejected_witness :
    handlerOfData (Json.obj [("a", Json.num ⟨1, 0⟩), ("text", Json.num ⟨0, 0⟩),
                             ("session_id", Json.str "x")]) 0 0 = noTextResp ∧
    handlerOfData (Json.obj [("text", Json.bool false), ("b", Json.str "y")]) 1 2 = noTextResp ∧
    handler (some "\x7b\"a\":1,\"text\":null,\"session_id\":\"s\"\x7d") 3 4 = noTextResp :=
  ⟨C10_falsy_text_rejected _ _ 0 0 (by rfl) (Or.inl ⟨⟨0, 0⟩, rfl, rfl⟩),
   C10_falsy_text_rejected _ _ 1 2 (by rfl) (Or.inr (Or.inl rfl)),
   C10_falsy_text_rejected
     (Json.obj [("a", Json.num ⟨1, 0⟩), ("text", Json.null), ("session_id", Json.str "s")])
     Json.null 3 4 (by rfl) (Or.inr (Or.inr rfl))⟩
